import Mathlib

/-!
Verification of the field classification and directive-resolution engine of
`proto-derive` (file `src/proto-derive/src/field/mod.rs`).

The Rust code operates on `syn` 0.11 attribute values.  We shallowly embed the
relevant fragment of that data model:

* `Lit` models `syn::Lit`, keeping the payloads the code inspects
  (`Str`, `Int` — whose payload is a `u64`, modelled as `Nat` —, `Bool`) and
  collapsing the remaining literal forms into `other`;
* `MetaItem` / `NestedMetaItem` model `syn::MetaItem` / `syn::NestedMetaItem`;
* `Attribute` models `syn::Attribute`, keeping only the `value` field, the only
  one the code reads.

Machine integers: `Lit::Int` carries a `u64`; the Rust cast `value as u32` is
truncation, embedded as `value % 2^32`.  `str::parse::<u32>` is embedded by
`parseU32`, which reproduces Rust's grammar (optional leading `+`, decimal
digits, range check) and its error strings.  Fallible Rust functions returning
`Result<T>` are embedded as `Except String T`, errors being the formatted
message strings the code builds (the `Debug` rendering of meta items is
embedded by `metaItemDebug`, structurally faithful to a derived `Debug`).
-/

namespace ProtoDerive

/-- Model of `syn::Lit` (the constructors the code distinguishes). -/
inductive Lit where
  | str (s : String)
  | int (value : Nat)
  | boolLit (b : Bool)
  | other
  deriving Repr, DecidableEq

mutual

/-- Model of `syn::MetaItem`: a word, a named list, or a name–value pair. -/
inductive MetaItem where
  | word (ident : String)
  | list (ident : String) (items : List NestedMetaItem)
  | nameValue (ident : String) (lit : Lit)

/-- Model of `syn::NestedMetaItem`: a nested meta item or a bare literal. -/
inductive NestedMetaItem where
  | metaItem (m : MetaItem)
  | literal (l : Lit)

end

/-- Model of `syn::Attribute`; only the `value` field is read by the code. -/
structure Attribute where
  value : MetaItem

/-- `MetaItem::name()`: the identifier of any of the three forms. -/
def MetaItem.name : MetaItem → String
  | .word ident => ident
  | .list ident _ => ident
  | .nameValue ident _ => ident

/-- Rendering of a `Lit` as in a derived `Debug` implementation. -/
def litDebug : Lit → String
  | .str s => "Str(" ++ s.quote ++ ", Cooked)"
  | .int value => "Int(" ++ toString value ++ ", Unsuffixed)"
  | .boolLit b => "Bool(" ++ (if b then "true" else "false") ++ ")"
  | .other => "Lit(..)"

mutual

/-- Rendering of a `MetaItem` as in a derived `Debug` implementation. -/
def metaItemDebug : MetaItem → String
  | .word ident => "Word(Ident(" ++ ident.quote ++ "))"
  | .list ident items =>
      "List(Ident(" ++ ident.quote ++ "), [" ++ nestedListDebug items ++ "])"
  | .nameValue ident lit =>
      "NameValue(Ident(" ++ ident.quote ++ "), " ++ litDebug lit ++ ")"

/-- Rendering of a `NestedMetaItem` as in a derived `Debug` implementation. -/
def nestedMetaItemDebug : NestedMetaItem → String
  | .metaItem m => "MetaItem(" ++ metaItemDebug m ++ ")"
  | .literal l => "Literal(" ++ litDebug l ++ ")"

/-- Comma-separated rendering of a list of nested meta items. -/
def nestedListDebug : List NestedMetaItem → String
  | [] => ""
  | [x] => nestedMetaItemDebug x
  | x :: xs => nestedMetaItemDebug x ++ ", " ++ nestedListDebug xs

end

/-- `2^32`, the modulus of the Rust cast `as u32` from `u64`. -/
def u32Mod : Nat := 4294967296

/-- Value of a decimal digit string (Rust accumulates left to right). -/
def digitsVal (l : List Char) : Nat :=
  l.foldl (fun acc c => acc * 10 + (c.toNat - 48)) 0

/-- A whitespace character as trimmed by Rust `str::trim` (the ASCII
fragment of Unicode `White_Space`, which covers the inputs of this code). -/
def isWs (c : Char) : Bool :=
  c = ' ' || c = '\t' || c = '\n' || c = '\r'

/-- Model of Rust `str::trim`: drop whitespace from both ends. -/
def trimChars (l : List Char) : List Char :=
  ((l.dropWhile isWs).reverse.dropWhile isWs).reverse

/-- Accumulator loop of `splitComma`. -/
def splitCommaAux : List Char → List Char → List (List Char)
  | [], acc => [acc.reverse]
  | c :: rest, acc =>
      if c = ',' then acc.reverse :: splitCommaAux rest []
      else splitCommaAux rest (c :: acc)

/-- Model of Rust `str::split(',')`: the (always non-empty) list of
segments between commas; an empty string yields one empty segment. -/
def splitComma (s : List Char) : List (List Char) :=
  splitCommaAux s []

/-- Sign handling of `u32::from_str`: a leading `+` is skipped (a `-` is not
a valid sign for an unsigned type, so it is left to fail the digit check). -/
def stripPlus : List Char → List Char
  | '+' :: rest => rest
  | s => s

/-- Digit phase of `u32::from_str`: decimal ASCII digits only, value at most
`u32::MAX`; the error strings are the `Display` forms of
`core::num::ParseIntError`. -/
def parseU32Digits (digits : List Char) : Except String Nat :=
  if digits.isEmpty then .error "invalid digit found in string"
  else if digits.all Char.isDigit then
    if digitsVal digits ≤ 4294967295 then .ok (digitsVal digits)
    else .error "number too large to fit in target type"
  else .error "invalid digit found in string"

/-- Model of Rust `str::parse::<u32>` (`u32::from_str`). -/
def parseU32 (s : List Char) : Except String Nat :=
  if s.isEmpty then .error "cannot parse integer from empty string"
  else parseU32Digits (stripPlus s)

/-- Model of Rust `str::parse::<bool>` (`bool::from_str`). -/
def parseBool (s : String) : Except String Bool :=
  if s = "true" then .ok true
  else if s = "false" then .ok false
  else .error "provided string was not `true` or `false`"

/-- `bool_attr(key, attr)`: unpacks an attribute into a boolean, `none` when
the name does not match `key`. -/
def bool_attr (key : String) (attr : MetaItem) : Except String (Option Bool) :=
  if attr.name ≠ key then .ok none
  else
    match attr with
    | .word _ => .ok (some true)
    | .list _ items =>
        match items with
        | [.literal (.boolLit value)] => .ok (some value)
        | _ => .error ("invalid " ++ key ++ " attribute")
    | .nameValue _ (.str s) => (parseBool s).map some
    | .nameValue _ (.boolLit value) => .ok (some value)
    | .nameValue _ _ => .error ("invalid " ++ key ++ " attribute")

/-- `word_attr(key, attr)`: true iff the attribute is the bare word `key`. -/
def word_attr (key : String) (attr : MetaItem) : Bool :=
  match attr with
  | .word ident => ident == key
  | _ => false

/-- `tag_attr(attr)`: parses a `tag` attribute; `none` when the name is not
`"tag"`.  The Rust casts `value as u32` on the `u64` literal payload are
truncation, embedded as `% u32Mod`. -/
def tag_attr (attr : MetaItem) : Except String (Option Nat) :=
  if attr.name ≠ "tag" then .ok none
  else
    match attr with
    | .list _ items =>
        match items with
        | [.literal (.int value)] => .ok (some (value % u32Mod))
        | _ => .error ("invalid tag attribute: " ++ metaItemDebug attr)
    | .nameValue _ (.str s) => (parseU32 s.toList).map some
    | .nameValue _ (.int value) => .ok (some (value % u32Mod))
    | .nameValue _ _ => .error ("invalid tag attribute: " ++ metaItemDebug attr)
    | .word _ => .error ("invalid tag attribute: " ++ metaItemDebug attr)

/-- The `for item in items` loop body of `tags_attr`'s list branch.  The Rust
code tests `items.first()` — not the loop variable — on every iteration, so
each slot re-reads the first item; the embedding reproduces this. -/
def tagsCollect (attr : MetaItem) (items : List NestedMetaItem) :
    List NestedMetaItem → Except String (List Nat)
  | [] => .ok []
  | _ :: rest =>
      match items.head? with
      | some (.literal (.int value)) =>
          (tagsCollect attr items rest).map (fun tags => value % u32Mod :: tags)
      | _ => .error ("invalid tag attribute: " ++ metaItemDebug attr)

/-- `tags_attr(attr)`: parses a `tags` attribute; `none` when the name is not
`"tags"`.  The list branch goes through `tagsCollect`; the string branch
splits on `,`, trims each segment and parses it as a `u32`. -/
def tags_attr (attr : MetaItem) : Except String (Option (List Nat)) :=
  if attr.name ≠ "tags" then .ok none
  else
    match attr with
    | .list _ items => (tagsCollect attr items items).map some
    | .nameValue _ (.str s) =>
        ((splitComma s.toList).mapM (fun seg => parseU32 (trimChars seg))).map
          some
    | _ => .error ("invalid tag attribute: " ++ metaItemDebug attr)

/-- `set_option(option, value, message)` (named `setOption` because
`set_option` is a Lean keyword): fails naming both values when the slot is
already occupied, otherwise stores the value.  The Rust slot is `&mut
Option<T>`; the embedding returns the new slot contents.  `debug` stands for
the `T: Debug` rendering. -/
def setOption {T : Type} (debug : T → String) (option : Option T) (value : T)
    (message : String) : Except String (Option T) :=
  match option with
  | some existing =>
      .error (message ++ ": " ++ debug existing ++ " and " ++ debug value)
  | none => .ok (some value)

/-- `set_bool(b, message)`: fails with `message` when the flag is already
true, otherwise sets it.  The Rust flag is `&mut bool`; the embedding returns
the new flag value. -/
def set_bool (b : Bool) (message : String) : Except String Bool :=
  if b then .error message else .ok true

/-- Model of a `quote::Tokens` code fragment, rendered as source text. -/
abbrev Tokens := String

/-- Descriptor produced by `scalar::Field::new` (module not in this file's
scope); its contract methods are carried as record fields. -/
structure ScalarField where
  tag : Nat
  encode : String → Tokens
  merge : String → Tokens
  encoded_len : String → Tokens
  default : Tokens
  methods : String → Option Tokens

/-- Descriptor produced by `message::Field::new` (module out of scope). -/
structure MessageField where
  tag : Nat
  encode : String → Tokens
  merge : String → Tokens
  encoded_len : String → Tokens

/-- Descriptor produced by `map::Field::new` (module out of scope). -/
structure MapField where
  tag : Nat
  encode : String → Tokens
  merge : String → Tokens
  encoded_len : String → Tokens
  methods : String → Option Tokens

/-- Descriptor produced by `oneof::Field::new` (module out of scope): the
dispatcher reads its `tags` list. -/
structure OneofField where
  tags : List Nat

/-- The resolved `Field`: a tagged union over the four kinds. -/
inductive Field where
  | scalar (f : ScalarField)
  | message (f : MessageField)
  | map (f : MapField)
  | oneof (f : OneofField)

/-- The four kind builders (`scalar::Field::new` and its siblings live in
modules outside this file); the dispatcher is parameterised over them. -/
structure Builders where
  scalar : List MetaItem → Except String (Option ScalarField)
  message : List MetaItem → Except String (Option MessageField)
  map : List MetaItem → Except String (Option MapField)
  oneof : List MetaItem → Except String (Option OneofField)

/-- The attribute-extraction prefix of `Field::new`: keep the items of `proto`
list attributes, then `flat_map` a `Result`-returning closure over them.  In
Rust an `Err` iterates as empty, so the `bail!` for a bare literal is
discarded and the literal is silently dropped — the embedding reproduces
this with `filterMap`. -/
def extractProtoAttrs (attrs : List Attribute) : List MetaItem :=
  ((attrs.map Attribute.value).flatMap fun v =>
    match v with
    | .list ident items => if ident == "proto" then items else []
    | _ => []).filterMap fun n =>
    match n with
    | .metaItem m => some m
    | .literal _ => none

/-- The builder-trial chain of `Field::new` (its `if let` cascade), applied
to the already-extracted directive list: try the four builders in order,
propagating a builder error via `?` and failing with `"no type attribute"`
when every builder declines. -/
def fieldDispatch (B : Builders) (attrs : List MetaItem) :
    Except String (Option Field) :=
  match B.scalar attrs with
  | .error e => .error e
  | .ok (some f) => .ok (some (.scalar f))
  | .ok none =>
    match B.message attrs with
    | .error e => .error e
    | .ok (some f) => .ok (some (.message f))
    | .ok none =>
      match B.map attrs with
      | .error e => .error e
      | .ok (some f) => .ok (some (.map f))
      | .ok none =>
        match B.oneof attrs with
        | .error e => .error e
        | .ok (some f) => .ok (some (.oneof f))
        | .ok none => .error "no type attribute"

/-- `Field::new(attrs)`: extract the items of the `proto` list attributes,
then run the builder-trial chain on them. -/
def Field.new (B : Builders) (attrs : List Attribute) :
    Except String (Option Field) :=
  fieldDispatch B (extractProtoAttrs attrs)

/-- `Field::tags()`: singleton for scalar/message/map, the stored list for
oneof. -/
def Field.tags : Field → List Nat
  | .scalar s => [s.tag]
  | .message m => [m.tag]
  | .map m => [m.tag]
  | .oneof o => o.tags

/-- `Field::encode(ident)`: forwards to the kind; oneof yields `quote!(();)`. -/
def Field.encode : Field → String → Tokens
  | .scalar s, ident => s.encode ident
  | .message m, ident => m.encode ident
  | .map m, ident => m.encode ident
  | .oneof _, _ => "();"

/-- `Field::merge(ident)`: forwards to the kind; the catch-all (oneof) yields
`quote!(Ok(()))`. -/
def Field.merge : Field → String → Tokens
  | .scalar s, ident => s.merge ident
  | .message m, ident => m.merge ident
  | .map m, ident => m.merge ident
  | .oneof _, _ => "Ok(())"

/-- `Field::encoded_len(ident)`: forwards to the kind; the catch-all (oneof)
yields `quote!(0)`. -/
def Field.encoded_len : Field → String → Tokens
  | .scalar s, ident => s.encoded_len ident
  | .map m, ident => m.encoded_len ident
  | .message m, ident => m.encoded_len ident
  | .oneof _, _ => "0"

/-- `Field::default()`: scalar forwards; every other kind yields
`quote!(::std::default::Default::default())`. -/
def Field.default : Field → Tokens
  | .scalar s => s.default
  | _ => "::std::default::Default::default()"

/-- `Field::methods(ident)`: scalar and map forward; the others yield none. -/
def Field.methods : Field → String → Option Tokens
  | .scalar s, ident => s.methods ident
  | .map m, ident => m.methods ident
  | _, _ => none

/-- Model of `Label`. -/
inductive Label where
  | optional
  | required
  | repeated
  deriving Repr, DecidableEq

/-- `Label::as_str()`: the canonical lowercase name. -/
def Label.as_str : Label → String
  | .optional => "optional"
  | .required => "required"
  | .repeated => "repeated"

/-- `Label::variants()`: the three variants in declaration order. -/
def Label.variants : List Label := [.optional, .required, .repeated]

/-- `Label::from_attr(attr)`: matches a bare word against the variants'
canonical names, `none` otherwise. -/
def Label.from_attr (attr : MetaItem) : Option Label :=
  match attr with
  | .word ident => Label.variants.find? (fun label => ident == label.as_str)
  | _ => none

/-- `fmt::Display for Label`: writes `as_str`. -/
def Label.display (label : Label) : String := label.as_str

/-- `fmt::Debug for Label`: writes `as_str`. -/
def Label.debug (label : Label) : String := label.as_str

/-- A sample scalar descriptor, used to exercise the dispatcher. -/
def sampleScalar : ScalarField :=
  ⟨1, fun _ => "", fun _ => "", fun _ => "", "", fun _ => none⟩

/-- Builders that all decline every attribute list. -/
def declineAll : Builders :=
  ⟨fun _ => .ok none, fun _ => .ok none, fun _ => .ok none, fun _ => .ok none⟩

/-- Builders whose scalar builder fails on every attribute list. -/
def scalarFails : Builders :=
  ⟨fun _ => .error "scalar failed", fun _ => .ok none, fun _ => .ok none,
    fun _ => .ok none⟩

/-- Auxiliary: a successful digit-phase value fits in 32 bits. -/
theorem parseU32Digits_le (digits : List Char) (v : Nat)
    (h : parseU32Digits digits = .ok v) : v ≤ 4294967295 := by
  unfold parseU32Digits at h
  split_ifs at h
  all_goals simp_all

/-- Auxiliary: a successful `parseU32` value fits in 32 bits. -/
theorem parseU32_le (l : List Char) (v : Nat) (h : parseU32 l = .ok v) :
    v ≤ 4294967295 := by
  unfold parseU32 at h
  by_cases hc : l.isEmpty = true
  · rw [if_pos hc] at h
    cases h
  · rw [if_neg hc] at h
    exact parseU32Digits_le _ _ h

/-- Auxiliary: `mapM` over `Except` fails when some element fails. -/
theorem mapM_error_of_mem {α β : Type} (f : α → Except String β) :
    ∀ (l : List α), (∃ x ∈ l, ∃ e, f x = .error e) →
      ∃ e, l.mapM f = .error e := by
  intro l
  induction l with
  | nil => rintro ⟨x, hx, _⟩; cases hx
  | cons a l ih =>
      rintro ⟨x, hx, e, he⟩
      rw [List.mapM_cons]
      rcases List.mem_cons.mp hx with h | h
      · subst h
        rw [he]
        exact ⟨e, rfl⟩
      · cases hfa : f a with
        | error e₂ => exact ⟨e₂, rfl⟩
        | ok b =>
            obtain ⟨e₃, he₃⟩ := ih ⟨x, h, e, he⟩
            rw [he₃]
            exact ⟨e₃, rfl⟩

end ProtoDerive

namespace ProtoDerive

/-- C6: `setOption` (the embedding of `set_option`) fails — naming the
context message and both the existing and incoming values — exactly when the
slot is already occupied, and otherwise stores the value; `set_bool` fails
with the context message exactly when the flag is already true, and
otherwise sets it to true. -/
theorem set_guards_single_assignment :
    (∀ (T : Type) (debug : T → String) (existing value : T) (message : String),
      setOption debug (some existing) value message =
        .error (message ++ ": " ++ debug existing ++ " and " ++ debug value)) ∧
    (∀ (T : Type) (debug : T → String) (value : T) (message : String),
      setOption debug none value message = .ok (some value)) ∧
    (∀ message : String, set_bool true message = .error message) ∧
    (∀ message : String, set_bool false message = .ok true) :=
  ⟨fun _ _ _ _ _ => rfl, fun _ _ _ _ => rfl, fun _ => rfl, fun _ => rfl⟩

/-- C8: a resolved oneof-variant `Field` yields the no-op fragment from
`encode`, the unconditional-success fragment from `merge`, the literal zero
fragment from `encoded_len`, the ambient default-construction fragment from
`default`, no auxiliary methods, and its full per-alternative tag list from
`tags`. -/
theorem oneof_field_contract (o : OneofField) (ident : String) :
    (Field.oneof o).encode ident = "();" ∧
    (Field.oneof o).merge ident = "Ok(())" ∧
    (Field.oneof o).encoded_len ident = "0" ∧
    (Field.oneof o).default = "::std::default::Default::default()" ∧
    (Field.oneof o).methods ident = none ∧
    (Field.oneof o).tags = o.tags :=
  ⟨rfl, rfl, rfl, rfl, rfl, rfl⟩

/-- C9: for each of the three labels, parsing the word produced by display
yields back that same label; display and debug both yield the canonical
lowercase variant name; and parsing any other word yields none. -/
theorem label_display_roundtrip :
    (∀ label : Label, Label.from_attr (.word label.display) = some label) ∧
    (∀ label : Label,
      label.display = label.as_str ∧ label.debug = label.as_str) ∧
    Label.optional.display = "optional" ∧
    Label.required.display = "required" ∧
    Label.repeated.display = "repeated" ∧
    (∀ s : String, s ≠ "optional" → s ≠ "required" → s ≠ "repeated" →
      Label.from_attr (.word s) = none) := by
  refine ⟨?_, ?_, rfl, rfl, rfl, ?_⟩
  · intro label
    cases label <;> rfl
  · intro label
    exact ⟨rfl, rfl⟩
  · intro s h1 h2 h3
    have e1 : (s == "optional") = false := beq_eq_false_iff_ne.mpr h1
    have e2 : (s == "required") = false := beq_eq_false_iff_ne.mpr h2
    have e3 : (s == "repeated") = false := beq_eq_false_iff_ne.mpr h3
    simp [Label.from_attr, Label.variants, List.find?, Label.as_str, e1, e2,
      e3]

/-- Witness for C9, at the word `"packed"`, not a label. -/
theorem label_display_roundtrip_witness :
    Label.from_attr (.word "packed") = none :=
  label_display_roundtrip.2.2.2.2.2 "packed" (by decide) (by decide)
    (by decide)

/-- C7: on a directive whose name differs from the expected one, `tag_attr`,
`tags_attr` and `bool_attr` all return ok none — a no-match, never an
error. -/
theorem attr_no_match (key : String) (attr : MetaItem) :
    (attr.name ≠ "tag" → tag_attr attr = .ok none) ∧
    (attr.name ≠ "tags" → tags_attr attr = .ok none) ∧
    (attr.name ≠ key → bool_attr key attr = .ok none) := by
  refine ⟨fun h => ?_, fun h => ?_, fun h => ?_⟩
  · unfold tag_attr
    rw [if_pos h]
  · unfold tags_attr
    rw [if_pos h]
  · unfold bool_attr
    rw [if_pos h]

/-- Witness for C7: probing the bare word `fixed` for `tag`, `tags` and the
key `packed`. -/
theorem attr_no_match_witness :
    tag_attr (.word "fixed") = .ok none ∧
    tags_attr (.word "fixed") = .ok none ∧
    bool_attr "packed" (.word "fixed") = .ok none := by
  have h := attr_no_match "packed" (.word "fixed")
  exact ⟨h.1 (by decide), h.2.1 (by decide), h.2.2 (by decide)⟩

/-- C1 (code defect): a bare literal inside a `proto` list attribute is
silently dropped by the extraction in `Field::new`: the `bail!` error is
built inside a closure whose `Result` is flattened by `flat_map`, and in
Rust an `Err` iterates as empty, so the error never reaches the caller and
resolution proceeds exactly as if the literal were absent. -/
theorem proto_literal_silently_dropped :
    extractProtoAttrs [⟨.list "proto" [.literal (.int 42)]⟩] = [] ∧
    (∀ B : Builders,
      Field.new B [⟨.list "proto" [.literal (.int 42)]⟩] = Field.new B []) :=
  ⟨rfl, fun _ => rfl⟩

/-- C2 (code defect): in the list-literal branch of `tags_attr` the loop
checks `items.first()` instead of the loop variable, so every slot re-reads
the first item: `tags(1, 2)` parses to `[1, 1]`, not `[1, 2]`. -/
theorem tags_list_rereads_first_item :
    tags_attr (.list "tags" [.literal (.int 1), .literal (.int 2)]) =
      .ok (some [1, 1]) ∧
    tags_attr (.list "tags" [.literal (.int 1), .literal (.int 2)]) ≠
      .ok (some [1, 2]) := by
  have base :
      tags_attr (.list "tags" [.literal (.int 1), .literal (.int 2)]) =
        .ok (some [1, 1]) := rfl
  refine ⟨base, ?_⟩
  rw [base]
  simp

/-- C10: `Field::new` never returns ok none: whatever the builders and the
attribute list, the result is an error or `ok (some field)`, despite the
doc comment's promise of a `None` for ignored fields. -/
theorem fieldNew_never_none (B : Builders) (attrs : List Attribute) :
    (∃ e, Field.new B attrs = .error e) ∨
    (∃ f, Field.new B attrs = .ok (some f)) := by
  unfold Field.new fieldDispatch
  cases hs : B.scalar (extractProtoAttrs attrs) with
  | error e => exact .inl ⟨e, rfl⟩
  | ok os =>
    cases os with
    | some f => exact .inr ⟨.scalar f, rfl⟩
    | none =>
      cases hm : B.message (extractProtoAttrs attrs) with
      | error e => exact .inl ⟨e, rfl⟩
      | ok om =>
        cases om with
        | some f => exact .inr ⟨.message f, rfl⟩
        | none =>
          cases hp : B.map (extractProtoAttrs attrs) with
          | error e => exact .inl ⟨e, rfl⟩
          | ok op =>
            cases op with
            | some f => exact .inr ⟨.map f, rfl⟩
            | none =>
              cases ho : B.oneof (extractProtoAttrs attrs) with
              | error e => exact .inl ⟨e, rfl⟩
              | ok oo =>
                cases oo with
                | some f => exact .inr ⟨.oneof f, rfl⟩
                | none => exact .inl ⟨"no type attribute", rfl⟩

/-- C4: the dispatcher in `Field::new` tries the builders in the order
scalar, message, map, oneof and takes the first non-none outcome — an error
from an earlier builder is returned without consulting later builders, a
success is wrapped in the matching variant — and when all four decline it
fails with the "no type attribute" diagnostic (the spec's "no type
directive found"). -/
theorem fieldNew_dispatch_order (B : Builders) (attrs : List Attribute) :
    (∀ e, B.scalar (extractProtoAttrs attrs) = .error e →
      Field.new B attrs = .error e) ∧
    (∀ f, B.scalar (extractProtoAttrs attrs) = .ok (some f) →
      Field.new B attrs = .ok (some (.scalar f))) ∧
    (∀ e, B.scalar (extractProtoAttrs attrs) = .ok none →
      B.message (extractProtoAttrs attrs) = .error e →
      Field.new B attrs = .error e) ∧
    (∀ f, B.scalar (extractProtoAttrs attrs) = .ok none →
      B.message (extractProtoAttrs attrs) = .ok (some f) →
      Field.new B attrs = .ok (some (.message f))) ∧
    (∀ e, B.scalar (extractProtoAttrs attrs) = .ok none →
      B.message (extractProtoAttrs attrs) = .ok none →
      B.map (extractProtoAttrs attrs) = .error e →
      Field.new B attrs = .error e) ∧
    (∀ f, B.scalar (extractProtoAttrs attrs) = .ok none →
      B.message (extractProtoAttrs attrs) = .ok none →
      B.map (extractProtoAttrs attrs) = .ok (some f) →
      Field.new B attrs = .ok (some (.map f))) ∧
    (∀ e, B.scalar (extractProtoAttrs attrs) = .ok none →
      B.message (extractProtoAttrs attrs) = .ok none →
      B.map (extractProtoAttrs attrs) = .ok none →
      B.oneof (extractProtoAttrs attrs) = .error e →
      Field.new B attrs = .error e) ∧
    (∀ f, B.scalar (extractProtoAttrs attrs) = .ok none →
      B.message (extractProtoAttrs attrs) = .ok none →
      B.map (extractProtoAttrs attrs) = .ok none →
      B.oneof (extractProtoAttrs attrs) = .ok (some f) →
      Field.new B attrs = .ok (some (.oneof f))) ∧
    (B.scalar (extractProtoAttrs attrs) = .ok none →
      B.message (extractProtoAttrs attrs) = .ok none →
      B.map (extractProtoAttrs attrs) = .ok none →
      B.oneof (extractProtoAttrs attrs) = .ok none →
      Field.new B attrs = .error "no type attribute") := by
  refine ⟨?_, ?_, ?_, ?_, ?_, ?_, ?_, ?_, ?_⟩
  all_goals intros
  all_goals simp_all [Field.new, fieldDispatch]

/-- Witness for C4: all-declining builders fail with the diagnostic, and a
failing scalar builder short-circuits the dispatch. -/
theorem fieldNew_dispatch_order_witness :
    Field.new declineAll [] = .error "no type attribute" ∧
    Field.new scalarFails [] = .error "scalar failed" := by
  refine ⟨?_, ?_⟩
  · exact (fieldNew_dispatch_order declineAll []).2.2.2.2.2.2.2.2 rfl rfl rfl
      rfl
  · exact (fieldNew_dispatch_order scalarFails []).1 "scalar failed" rfl

/-- C3 counterexample: in the list-literal form an out-of-range value is not
rejected — `tag(4294967296)` (that is, `2^32`) is truncated to `0` and
accepted. -/
theorem tag_out_of_range_not_error :
    tag_attr (.list "tag" [.literal (.int 4294967296)]) = .ok (some 0) := rfl

/-- C3 (amended): the name=string form of `tag` enforces the 32-bit range
(an accepted value is at most `u32::MAX`; non-numeric and out-of-range
strings are errors), other payload shapes are errors, but the list-literal
and name=integer forms truncate the 64-bit literal to 32 bits
(`value % 2^32`) without error. -/
theorem tag_attr_range (value : Nat) (s : String) (v : Nat) (b : Bool) :
    tag_attr (.list "tag" [.literal (.int value)]) =
      .ok (some (value % u32Mod)) ∧
    tag_attr (.nameValue "tag" (.int value)) = .ok (some (value % u32Mod)) ∧
    (tag_attr (.nameValue "tag" (.str s)) = .ok (some v) →
      v ≤ 4294967295) ∧
    tag_attr (.nameValue "tag" (.str "4294967296")) =
      .error "number too large to fit in target type" ∧
    tag_attr (.nameValue "tag" (.str "abc")) =
      .error "invalid digit found in string" ∧
    tag_attr (.nameValue "tag" (.str "-1")) =
      .error "invalid digit found in string" ∧
    tag_attr (.nameValue "tag" (.boolLit b)) =
      .error ("invalid tag attribute: " ++
        metaItemDebug (.nameValue "tag" (.boolLit b))) := by
  have key : tag_attr (.nameValue "tag" (.str s)) =
      (parseU32 s.toList).map some := by
    unfold tag_attr
    rw [if_neg (by simp [MetaItem.name])]
  refine ⟨rfl, rfl, ?_, rfl, rfl, rfl, rfl⟩
  intro h
  rw [key] at h
  cases hp : parseU32 s.toList with
  | error e => rw [hp] at h; cases h
  | ok u =>
      rw [hp] at h
      simp only [Except.map, Except.ok.injEq, Option.some.injEq] at h
      exact h ▸ parseU32_le _ _ hp

/-- Witness for C3, at `tag = "5"`. -/
theorem tag_attr_range_witness :
    tag_attr (.nameValue "tag" (.str "5")) = .ok (some 5) ∧
    (5 : Nat) ≤ 4294967295 :=
  ⟨rfl, (tag_attr_range 0 "5" 5 true).2.2.1 rfl⟩

/-- C5 counterexample: an empty `tags` list literal is accepted, producing
`ok (some [])` — an empty sequence, not an error. -/
theorem tags_empty_list_accepted :
    tags_attr (.list "tags" []) = .ok (some []) := rfl

/-- C5 (amended): `tags = "1, 2, 3"` resolves to `[1, 2, 3]` in order; an
empty string is an error (its single empty segment fails integer parsing),
and a string with any unparsable segment is an error; but an empty list
literal is accepted, producing the empty sequence. -/
theorem tags_attr_string_parsing (s : String) :
    tags_attr (.nameValue "tags" (.str "1, 2, 3")) = .ok (some [1, 2, 3]) ∧
    tags_attr (.nameValue "tags" (.str "")) =
      .error "cannot parse integer from empty string" ∧
    ((∃ seg ∈ splitComma s.toList, ∃ e, parseU32 (trimChars seg) = .error e)
      → ∃ e, tags_attr (.nameValue "tags" (.str s)) = .error e) ∧
    tags_attr (.list "tags" []) = .ok (some []) := by
  refine ⟨rfl, rfl, ?_, rfl⟩
  intro hex
  obtain ⟨e, he⟩ :=
    mapM_error_of_mem (fun seg => parseU32 (trimChars seg)) _ hex
  refine ⟨e, ?_⟩
  have key : tags_attr (.nameValue "tags" (.str s)) =
      ((splitComma s.toList).mapM
        (fun seg => parseU32 (trimChars seg))).map some := by
    unfold tags_attr
    rw [if_neg (by simp [MetaItem.name])]
  rw [key, he]
  rfl

/-- Witness for C5, at the string `"1, x, 3"` whose middle segment is not
numeric. -/
theorem tags_attr_string_parsing_witness :
    ∃ e, tags_attr (.nameValue "tags" (.str "1, x, 3")) = .error e := by
  refine (tags_attr_string_parsing "1, x, 3").2.2.1
    ⟨[' ', 'x'], ?_, "invalid digit found in string", rfl⟩
  rw [show splitComma "1, x, 3".toList = [['1'], [' ', 'x'], [' ', '3']]
    from rfl]
  simp

end ProtoDerive
